import Mathlib

/-!
Shallow embedding of `combo_sensor_ble.ino`: an Arduino sketch that reads
temperature, humidity, pressure and color sensors and publishes changed
values over BLE GATT characteristics.

Modelling conventions:
- C `float` arithmetic is modelled exactly over `ℚ` (the readings of interest
  are small decimals, and every property below is robust to the tiny
  representation error of IEEE single precision).
- The C cast `(int) x` truncates toward zero; it is modelled by `truncQ`,
  built on `Int.tdiv` (T-division, the C convention).
- The mutable globals of the sketch are a `Globals` record; `updateReadings`
  is the state transformer of one update cycle, returning the new globals
  and the list of characteristic writes (publishes) it performed.
- The `loop` function is a step machine over `SysState` (link state, LED,
  globals) driven by events: connect, disconnect, and one inner-`while`
  iteration carrying the current `millis()` value and fresh sensor readings.
-/

namespace ComboSensorBLE

/-- `const int UPDATE_FREQUENCY = 2000` (ms). -/
def UPDATE_FREQUENCY : ℤ := 2000

/-- `const float CALIBRATION_FACTOR = -4.0` (degrees Celsius). -/
def CALIBRATION_FACTOR : ℚ := -4

/-- The C cast `(int) q` for a real value `q`: truncation toward zero.
`Int.tdiv` is T-division, which truncates toward zero, and `q.den > 0`. -/
def truncQ (q : ℚ) : ℤ := q.num.tdiv q.den

/-- `int getTemperature(float calibration)`:
`(int) (HTS.readTemperature() * 100) + (int) (calibration * 100)`.
The sensor reading is the parameter `raw`. -/
def getTemperature (raw calibration : ℚ) : ℤ :=
  truncQ (raw * 100) + truncQ (calibration * 100)

/-- `unsigned int getHumidity()`: `(unsigned int) (HTS.readHumidity() * 100)`.
The sensor reading is the parameter `raw` (a physical relative humidity,
so nonnegative; `Int.toNat` models the defined cases of the cast). -/
def getHumidity (raw : ℚ) : ℕ := (truncQ (raw * 100)).toNat

/-- `unsigned int getPressure()`: `(unsigned int) (BARO.readPressure() * 1000 * 10)`.
The sensor reading is the parameter `raw`, in kPa. -/
def getPressure (raw : ℚ) : ℕ := (truncQ (raw * 1000 * 10)).toNat

/-- Spec-comparison codec for temperature, following the spec text
`round(raw_celsius * 100) + round(calibration_celsius * 100)`
(round to nearest; ties do not matter for the comparison below). -/
def getTemperature_specRound (raw calibration : ℚ) : ℤ :=
  round (raw * 100) + round (calibration * 100)

/-- Spec-comparison codec for humidity: `round(raw_percent * 100)`. -/
def getHumidity_specRound (raw : ℚ) : ℕ := (round (raw * 100) : ℤ).toNat

/-- Spec-comparison codec for pressure: `round(raw_kilopascals * 1000 * 10)`. -/
def getPressure_specRound (raw : ℚ) : ℕ := (round (raw * 1000 * 10) : ℤ).toNat

/-- On nonnegative rationals the C truncation agrees with the floor. -/
theorem truncQ_floor (q : ℚ) (h : 0 ≤ q) : truncQ q = ⌊q⌋ := by
  rw [Rat.floor_def, truncQ]
  exact Int.tdiv_eq_ediv (Rat.num_nonneg.mpr h) (Int.natCast_nonneg q.den)

/-- Truncation toward zero is an odd function. -/
theorem truncQ_neg (q : ℚ) : truncQ (-q) = -truncQ q := by
  rw [truncQ, truncQ, Rat.num_neg_eq_neg_num, Rat.den_neg_eq_den, Int.neg_tdiv]

/-- `truncQ` really is truncation toward zero: floor on nonnegative values,
ceiling on negative ones. -/
theorem truncQ_eq (q : ℚ) : truncQ q = if 0 ≤ q then ⌊q⌋ else ⌈q⌉ := by
  rcases le_or_lt 0 q with h | h
  · rw [if_pos h, truncQ_floor q h]
  · rw [if_neg (not_le.mpr h)]
    have h2 : truncQ (-q) = ⌊-q⌋ := truncQ_floor (-q) (by linarith)
    rw [truncQ_neg, Int.floor_neg] at h2
    omega

/-- Evaluation rule for `truncQ` at nonnegative arguments. -/
theorem truncQ_eval_nonneg (q : ℚ) (n : ℤ) (hn : 0 ≤ n) (h1 : (n : ℚ) ≤ q)
    (h2 : q < n + 1) : truncQ q = n := by
  have h0 : (0 : ℚ) ≤ q := le_trans (by exact_mod_cast hn) h1
  rw [truncQ_floor q h0]
  exact Int.floor_eq_iff.mpr ⟨h1, h2⟩

/-- Evaluation rule for `truncQ` at negative arguments. -/
theorem truncQ_eval_neg (q : ℚ) (n : ℤ) (hn : n < 0) (h1 : (n : ℚ) - 1 < q)
    (h2 : q ≤ n) : truncQ q = n := by
  have h0 : q < 0 := lt_of_le_of_lt h2 (by exact_mod_cast hn)
  rw [truncQ_eq, if_neg (not_le.mpr h0)]
  exact Int.ceil_eq_iff.mpr ⟨h1, h2⟩

/-- Evaluation rule for `round` on `ℚ`. -/
theorem roundQ_eval (q : ℚ) (n : ℤ) (h1 : (n : ℚ) ≤ q + 1/2)
    (h2 : q + 1/2 < (n : ℚ) + 1) : round q = n := by
  rw [round_eq]
  exact Int.floor_eq_iff.mpr ⟨h1, h2⟩

/-- The mutable globals of the sketch (lines 38-43):
`previousTemperature`, `previousHumidity`, `previousPressure`,
`previousColor`, the current color tuple `r, g, b, a`, and the scheduler
clock `previousMillis` (`long`, modelled as `ℤ`). -/
structure Globals where
  previousTemperature : ℤ
  previousHumidity : ℕ
  previousPressure : ℕ
  previousColor : String
  r : ℤ
  g : ℤ
  b : ℤ
  a : ℤ
  previousMillis : ℤ
deriving DecidableEq

/-- The initial values of the globals: zeros and the empty string. -/
def initialGlobals : Globals :=
  { previousTemperature := 0, previousHumidity := 0, previousPressure := 0
    previousColor := "", r := 0, g := 0, b := 0, a := 0, previousMillis := 0 }

/-- The fresh sensor readings consumed by one update cycle: the three raw
scalar readings (as exact rationals) and the four color intensities
delivered by `APDS.readColor`. -/
structure Readings where
  tempRaw : ℚ
  humidRaw : ℚ
  pressRaw : ℚ
  colorR : ℤ
  colorG : ℤ
  colorB : ℤ
  colorA : ℤ
deriving DecidableEq

/-- One characteristic write performed by `updateReadings`. -/
inductive Publish where
  | temp (v : ℤ)
  | humid (v : ℕ)
  | press (v : ℕ)
  | color (bytes : List ℕ)
deriving DecidableEq

/-- The comma-joined decimal string `"r,g,b,a"` built by the `String`
concatenations at lines 199-206. -/
def colorString (r g b a : ℤ) : String :=
  toString r ++ "," ++ toString g ++ "," ++ toString b ++ "," ++ toString a

/-- The byte buffer written to the color characteristic:
`stringColor.getBytes(bytes, stringColor.length() + 1)` NUL-terminates the
ASCII bytes, and `writeValue(bytes, sizeof(bytes))` sends all
`length + 1` bytes. -/
def colorBytes (s : String) : List ℕ := s.data.map Char.toNat ++ [0]

/-- One update cycle (`updateReadings`, lines 170-219): read and encode all
four channels, store the fresh color tuple in the globals, and for each
channel publish and record the encoded value exactly when it differs from
the stored last-published value. The four `if` blocks of the source touch
pairwise disjoint fields and each condition reads only fields no earlier
block writes, so they are modelled as one simultaneous record update plus
the concatenated publish list, in source order. -/
def updateReadings (s : Globals) (rd : Readings) : Globals × List Publish :=
  let temperature := getTemperature rd.tempRaw CALIBRATION_FACTOR
  let humidity := getHumidity rd.humidRaw
  let pressure := getPressure rd.pressRaw
  let stringColor := colorString rd.colorR rd.colorG rd.colorB rd.colorA
  ({ s with
      r := rd.colorR, g := rd.colorG, b := rd.colorB, a := rd.colorA
      previousTemperature :=
        if temperature ≠ s.previousTemperature then temperature
        else s.previousTemperature
      previousHumidity :=
        if humidity ≠ s.previousHumidity then humidity else s.previousHumidity
      previousPressure :=
        if pressure ≠ s.previousPressure then pressure else s.previousPressure
      previousColor :=
        if stringColor ≠ s.previousColor then stringColor
        else s.previousColor },
   (if temperature ≠ s.previousTemperature then [Publish.temp temperature]
    else []) ++
   (if humidity ≠ s.previousHumidity then [Publish.humid humidity] else []) ++
   (if pressure ≠ s.previousPressure then [Publish.press pressure] else []) ++
   (if stringColor ≠ s.previousColor then
      [Publish.color (colorBytes stringColor)]
    else []))

/-- Does a publish list contain a temperature write? -/
def hasTempPub (pubs : List Publish) : Bool :=
  pubs.any fun p => match p with | Publish.temp _ => true | _ => false

/-- Does a publish list contain a humidity write? -/
def hasHumidPub (pubs : List Publish) : Bool :=
  pubs.any fun p => match p with | Publish.humid _ => true | _ => false

/-- Does a publish list contain a pressure write? -/
def hasPressPub (pubs : List Publish) : Bool :=
  pubs.any fun p => match p with | Publish.press _ => true | _ => false

/-- Does a publish list contain a color write? -/
def hasColorPub (pubs : List Publish) : Bool :=
  pubs.any fun p => match p with | Publish.color _ => true | _ => false

/-- The observable machine state of `loop`: the link state (is a central
connected), the LED connection indicator, and the globals. -/
structure SysState where
  connected : Bool
  ledOn : Bool
  globals : Globals
deriving DecidableEq

/-- The machine after `setup()`: disconnected, LED off, zeroed globals. -/
def initialState : SysState :=
  { connected := false, ledOn := false, globals := initialGlobals }

/-- The events driving `loop` (lines 115-138): a central connects (LED on),
the central disconnects (LED off), or one iteration of the inner
`while (central.connected())` loop runs, observing the clock `now`
(`millis()`) and, if the interval has elapsed, consuming fresh readings. -/
inductive Event where
  | connect
  | disconnect
  | tick (now : ℤ) (rd : Readings)
deriving DecidableEq

/-- One step of `loop`. While no central is connected the body does
nothing (no tick evaluation, no publish); a connection turns the LED on;
a disconnection turns the LED off; a connected tick fires an update cycle
exactly when `now - previousMillis ≥ UPDATE_FREQUENCY`, first resetting
`previousMillis` to `now`. Returns the new state and the publishes. -/
def step (s : SysState) (ev : Event) : SysState × List Publish :=
  match ev with
  | Event.connect => ({ s with connected := true, ledOn := true }, [])
  | Event.disconnect => ({ s with connected := false, ledOn := false }, [])
  | Event.tick now rd =>
    if s.connected then
      if UPDATE_FREQUENCY ≤ now - s.globals.previousMillis then
        let result := updateReadings { s.globals with previousMillis := now } rd
        ({ s with globals := result.1 }, result.2)
      else (s, [])
    else (s, [])

/-- The encoded values computed during one update cycle, as executed in the
global environment `s`: the temperature, humidity and pressure codecs read
only their sensor input (and the calibration constant), and the color string
is built from the tuple `getColor` just stored, i.e. from the fresh reading,
so the ambient globals cannot influence any encoded value. -/
def cycleEncodings (s : Globals) (rd : Readings) : ℤ × ℕ × ℕ × String :=
  let s1 := { s with r := rd.colorR, g := rd.colorG, b := rd.colorB
                     a := rd.colorA }
  (getTemperature rd.tempRaw CALIBRATION_FACTOR, getHumidity rd.humidRaw,
   getPressure rd.pressRaw, colorString s1.r s1.g s1.b s1.a)

/-- `updateReadings` never touches the scheduler clock `previousMillis`. -/
theorem updateReadings_previousMillis (s : Globals) (rd : Readings) :
    (updateReadings s rd).1.previousMillis = s.previousMillis := rfl

/-- A temperature write appears in a cycle's publishes exactly for the
fresh encoded value, and exactly when it differs from the stored one. -/
theorem mem_updateReadings_temp (s : Globals) (rd : Readings) (v : ℤ) :
    Publish.temp v ∈ (updateReadings s rd).2 ↔
      v = getTemperature rd.tempRaw CALIBRATION_FACTOR ∧
      getTemperature rd.tempRaw CALIBRATION_FACTOR ≠ s.previousTemperature := by
  simp only [updateReadings, List.mem_append]
  split_ifs with h1 h2 h3 h4 <;> simp_all

/-- A humidity write appears exactly for the fresh encoded value, and
exactly when it differs from the stored one. -/
theorem mem_updateReadings_humid (s : Globals) (rd : Readings) (v : ℕ) :
    Publish.humid v ∈ (updateReadings s rd).2 ↔
      v = getHumidity rd.humidRaw ∧
      getHumidity rd.humidRaw ≠ s.previousHumidity := by
  simp only [updateReadings, List.mem_append]
  split_ifs with h1 h2 h3 h4 <;> simp_all

/-- A pressure write appears exactly for the fresh encoded value, and
exactly when it differs from the stored one. -/
theorem mem_updateReadings_press (s : Globals) (rd : Readings) (v : ℕ) :
    Publish.press v ∈ (updateReadings s rd).2 ↔
      v = getPressure rd.pressRaw ∧
      getPressure rd.pressRaw ≠ s.previousPressure := by
  simp only [updateReadings, List.mem_append]
  split_ifs with h1 h2 h3 h4 <;> simp_all

/-- A color write appears exactly for the fresh encoded byte buffer, and
exactly when the fresh string differs from the stored one. -/
theorem mem_updateReadings_color (s : Globals) (rd : Readings) (bs : List ℕ) :
    Publish.color bs ∈ (updateReadings s rd).2 ↔
      bs = colorBytes (colorString rd.colorR rd.colorG rd.colorB rd.colorA) ∧
      colorString rd.colorR rd.colorG rd.colorB rd.colorA ≠ s.previousColor := by
  simp only [updateReadings, List.mem_append]
  split_ifs with h1 h2 h3 h4 <;> simp_all

/-- A cycle contains a temperature write exactly when the fresh encoded
temperature differs from the stored one. -/
theorem hasTempPub_updateReadings (s : Globals) (rd : Readings) :
    hasTempPub (updateReadings s rd).2 = true ↔
      getTemperature rd.tempRaw CALIBRATION_FACTOR ≠ s.previousTemperature := by
  simp only [updateReadings, hasTempPub, List.any_append]
  split_ifs with h1 h2 h3 h4 <;> simp_all

/-- A cycle contains a humidity write exactly when the fresh encoded
humidity differs from the stored one. -/
theorem hasHumidPub_updateReadings (s : Globals) (rd : Readings) :
    hasHumidPub (updateReadings s rd).2 = true ↔
      getHumidity rd.humidRaw ≠ s.previousHumidity := by
  simp only [updateReadings, hasHumidPub, List.any_append]
  split_ifs with h1 h2 h3 h4 <;> simp_all

/-- A cycle contains a pressure write exactly when the fresh encoded
pressure differs from the stored one. -/
theorem hasPressPub_updateReadings (s : Globals) (rd : Readings) :
    hasPressPub (updateReadings s rd).2 = true ↔
      getPressure rd.pressRaw ≠ s.previousPressure := by
  simp only [updateReadings, hasPressPub, List.any_append]
  split_ifs with h1 h2 h3 h4 <;> simp_all

/-- A cycle contains a color write exactly when the fresh color string
differs from the stored one. -/
theorem hasColorPub_updateReadings (s : Globals) (rd : Readings) :
    hasColorPub (updateReadings s rd).2 = true ↔
      colorString rd.colorR rd.colorG rd.colorB rd.colorA ≠ s.previousColor := by
  simp only [updateReadings, hasColorPub, List.any_append]
  split_ifs with h1 h2 h3 h4 <;> simp_all

/-- The encoded color string is never the empty string: it always contains
three separators. -/
theorem colorString_ne_empty (r g b a : ℤ) : colorString r g b a ≠ "" := by
  intro h
  have hl := congrArg String.length h
  simp only [colorString, String.length_append,
    show ("," : String).length = 1 from rfl,
    show ("" : String).length = 0 from rfl] at hl
  omega

/-- Cycle readings whose color tuple is (100, 200, 300, 50). -/
def rdC : Readings := ⟨0, 0, 0, 100, 200, 300, 50⟩

/-- Cycle readings whose raw temperature 4.0 degrees encodes, with the
calibration factor -4.0, to exactly 0 centi-degrees. -/
def rdZero : Readings := ⟨4, 0, 0, 1, 2, 3, 4⟩

/-- C1: For every channel and every state, a characteristic write occurs in
an update cycle exactly when the newly encoded value differs from the
stored last-published value, and the stored value is updated exactly when
the write occurs (otherwise it is left unchanged); moreover, starting from
the startup state, color readings (100, 200, 300, 50) publish the byte
buffer of "100,200,300,50" in the first cycle, and an identical second
cycle publishes nothing for Color. -/
theorem change_filter_publish_iff (s : Globals) (rd : Readings) :
    ((Publish.temp (getTemperature rd.tempRaw CALIBRATION_FACTOR) ∈
        (updateReadings s rd).2 ↔
      getTemperature rd.tempRaw CALIBRATION_FACTOR ≠ s.previousTemperature) ∧
     (updateReadings s rd).1.previousTemperature =
       (if getTemperature rd.tempRaw CALIBRATION_FACTOR ≠ s.previousTemperature
        then getTemperature rd.tempRaw CALIBRATION_FACTOR
        else s.previousTemperature)) ∧
    ((Publish.humid (getHumidity rd.humidRaw) ∈ (updateReadings s rd).2 ↔
      getHumidity rd.humidRaw ≠ s.previousHumidity) ∧
     (updateReadings s rd).1.previousHumidity =
       (if getHumidity rd.humidRaw ≠ s.previousHumidity
        then getHumidity rd.humidRaw else s.previousHumidity)) ∧
    ((Publish.press (getPressure rd.pressRaw) ∈ (updateReadings s rd).2 ↔
      getPressure rd.pressRaw ≠ s.previousPressure) ∧
     (updateReadings s rd).1.previousPressure =
       (if getPressure rd.pressRaw ≠ s.previousPressure
        then getPressure rd.pressRaw else s.previousPressure)) ∧
    ((Publish.color (colorBytes
        (colorString rd.colorR rd.colorG rd.colorB rd.colorA)) ∈
        (updateReadings s rd).2 ↔
      colorString rd.colorR rd.colorG rd.colorB rd.colorA ≠
        s.previousColor) ∧
     (updateReadings s rd).1.previousColor =
       (if colorString rd.colorR rd.colorG rd.colorB rd.colorA ≠
           s.previousColor
        then colorString rd.colorR rd.colorG rd.colorB rd.colorA
        else s.previousColor)) ∧
    Publish.color (colorBytes "100,200,300,50") ∈
      (updateReadings initialGlobals rdC).2 ∧
    hasColorPub
      (updateReadings (updateReadings initialGlobals rdC).1 rdC).2 = false := by
  refine ⟨⟨by rw [mem_updateReadings_temp]; simp, rfl⟩,
          ⟨by rw [mem_updateReadings_humid]; simp, rfl⟩,
          ⟨by rw [mem_updateReadings_press]; simp, rfl⟩,
          ⟨by rw [mem_updateReadings_color]; simp, rfl⟩, ?_, ?_⟩
  · rw [mem_updateReadings_color]
    exact ⟨by simp [rdC]; decide, by simp [rdC, initialGlobals]; decide⟩
  · have hprev : (updateReadings initialGlobals rdC).1.previousColor =
        colorString 100 200 300 50 := by
      simp only [updateReadings]
      rw [if_pos (by simp [rdC, initialGlobals]; decide)]
      simp [rdC]
    rw [Bool.eq_false_iff]
    intro hc
    rw [hasColorPub_updateReadings, hprev] at hc
    simp [rdC] at hc

/-- C2 counterexample: at raw temperature 25.557 degrees and calibration
-4.0, the code truncates 2555.7 to 2555 and returns 2155, while the round
formula of the claim yields 2556 - 400 = 2156. -/
theorem temperature_codec_round_cex :
    getTemperature (25557/1000) (-4) = 2155 ∧
    getTemperature_specRound (25557/1000) (-4) = 2156 := by
  constructor
  · rw [getTemperature, truncQ_eval_nonneg (25557/1000 * 100) 2555
      (by norm_num) (by norm_num) (by norm_num),
      truncQ_eval_neg ((-4 : ℚ) * 100) (-400) (by norm_num) (by norm_num)
      (by norm_num)]
    norm_num
  · rw [getTemperature_specRound, roundQ_eval (25557/1000 * 100) 2556
      (by norm_num) (by norm_num), roundQ_eval ((-4 : ℚ) * 100) (-400)
      (by norm_num) (by norm_num)]
    norm_num

/-- C2 amended: the temperature codec returns the truncation toward zero
(not the rounding to nearest) of raw*100, plus the truncation toward zero
of calibration*100; the concrete case of the claim holds: raw 21.5 with
calibration -4.0 encodes to 1750. -/
theorem temperature_codec_trunc (raw cal : ℚ) :
    getTemperature raw cal =
      (if 0 ≤ raw * 100 then ⌊raw * 100⌋ else ⌈raw * 100⌉) +
      (if 0 ≤ cal * 100 then ⌊cal * 100⌋ else ⌈cal * 100⌉) ∧
    getTemperature (43/2) (-4) = 1750 := by
  constructor
  · rw [getTemperature, truncQ_eq, truncQ_eq]
  · rw [getTemperature, truncQ_eval_nonneg (43/2 * 100) 2150 (by norm_num)
      (by norm_num) (by norm_num), truncQ_eval_neg ((-4 : ℚ) * 100) (-400)
      (by norm_num) (by norm_num) (by norm_num)]
    norm_num

/-- C3 counterexample: from the startup state, a first cycle whose raw
temperature is 4.0 degrees (which encodes to 0, the initial baseline)
publishes no temperature write, so the very first reading is not always
published. -/
theorem first_cycle_zero_reading_cex :
    hasTempPub (updateReadings initialGlobals rdZero).2 = false := by
  rw [Bool.eq_false_iff]
  intro hc
  rw [hasTempPub_updateReadings] at hc
  apply hc
  show getTemperature 4 CALIBRATION_FACTOR = initialGlobals.previousTemperature
  rw [getTemperature, CALIBRATION_FACTOR,
    truncQ_eval_nonneg ((4 : ℚ) * 100) 400 (by norm_num) (by norm_num)
    (by norm_num), truncQ_eval_neg ((-4 : ℚ) * 100) (-400) (by norm_num)
    (by norm_num) (by norm_num)]
  norm_num [initialGlobals]

/-- C3 amended: from the startup state (numeric baselines zero, empty
string for Color), the first cycle publishes a numeric channel exactly when
its encoded value differs from zero, while Color is always published in the
first cycle because the encoded string is never empty. -/
theorem first_cycle_publish_iff (rd : Readings) :
    (hasTempPub (updateReadings initialGlobals rd).2 = true ↔
      getTemperature rd.tempRaw CALIBRATION_FACTOR ≠ 0) ∧
    (hasHumidPub (updateReadings initialGlobals rd).2 = true ↔
      getHumidity rd.humidRaw ≠ 0) ∧
    (hasPressPub (updateReadings initialGlobals rd).2 = true ↔
      getPressure rd.pressRaw ≠ 0) ∧
    hasColorPub (updateReadings initialGlobals rd).2 = true :=
  ⟨hasTempPub_updateReadings initialGlobals rd,
   hasHumidPub_updateReadings initialGlobals rd,
   hasPressPub_updateReadings initialGlobals rd,
   (hasColorPub_updateReadings initialGlobals rd).mpr
     (colorString_ne_empty _ _ _ _)⟩

/-- C4: while no central is connected, no step of the loop emits any
characteristic write, regardless of the observed clock value or of the
sensor readings. -/
theorem no_publish_while_disconnected (s : SysState) (ev : Event)
    (h : s.connected = false) : (step s ev).2 = [] := by
  cases ev <;> simp [step, h]

/-- Witness for C4 at the startup state and an arbitrary late tick. -/
theorem no_publish_while_disconnected_witness :
    initialState.connected = false ∧
    (step initialState (Event.tick 1000000 ⟨1, 2, 3, 4, 5, 6, 7⟩)).2 = [] :=
  ⟨rfl, no_publish_while_disconnected initialState
    (Event.tick 1000000 ⟨1, 2, 3, 4, 5, 6, 7⟩) rfl⟩

/-- A connected tick whose interval has not yet elapsed is a no-op. -/
theorem step_tick_not_due (s : SysState) (now : ℤ) (rd : Readings)
    (hc : s.connected = true)
    (h : ¬ UPDATE_FREQUENCY ≤ now - s.globals.previousMillis) :
    step s (Event.tick now rd) = (s, []) := by
  simp [step, hc, h]

/-- C5: while connected, a tick fires an update cycle exactly when
`now - previousMillis ≥ UPDATE_FREQUENCY` (2000 ms); on firing it resets
`previousMillis` to `now` and runs the cycle, otherwise it changes nothing
and publishes nothing; consequently a second evaluation less than 2000 ms
after a firing one does not fire again. -/
theorem scheduler_interval (s : SysState) (now now2 : ℤ) (rd rd2 : Readings)
    (hc : s.connected = true) :
    (UPDATE_FREQUENCY ≤ now - s.globals.previousMillis →
       (step s (Event.tick now rd)).1.globals =
         (updateReadings { s.globals with previousMillis := now } rd).1 ∧
       (step s (Event.tick now rd)).2 =
         (updateReadings { s.globals with previousMillis := now } rd).2 ∧
       (step s (Event.tick now rd)).1.globals.previousMillis = now) ∧
    (¬ UPDATE_FREQUENCY ≤ now - s.globals.previousMillis →
       (step s (Event.tick now rd)).1 = s ∧
       (step s (Event.tick now rd)).2 = []) ∧
    (UPDATE_FREQUENCY ≤ now - s.globals.previousMillis →
       now2 - now < UPDATE_FREQUENCY →
       (step (step s (Event.tick now rd)).1 (Event.tick now2 rd2)).1 =
         (step s (Event.tick now rd)).1 ∧
       (step (step s (Event.tick now rd)).1 (Event.tick now2 rd2)).2 = []) := by
  refine ⟨?_, ?_, ?_⟩
  · intro h
    refine ⟨by simp [step, hc, h], by simp [step, hc, h], ?_⟩
    simp [step, hc, h, updateReadings_previousMillis]
  · intro h
    constructor <;> simp [step, hc, h]
  · intro h h2
    have h1 : (step s (Event.tick now rd)).1.globals.previousMillis = now := by
      simp [step, hc, h, updateReadings_previousMillis]
    have hcc : (step s (Event.tick now rd)).1.connected = true := by
      simp [step, hc, h]
    have hnot : ¬ UPDATE_FREQUENCY ≤ now2 -
        (step s (Event.tick now rd)).1.globals.previousMillis := by
      rw [h1, UPDATE_FREQUENCY] at *
      omega
    rw [step_tick_not_due _ now2 rd2 hcc hnot]
    exact ⟨rfl, rfl⟩

/-- Witness for C5: from a connected state with `previousMillis = 0`, the
tick at 2500 ms fires and resets the stored tick time to 2500. -/
theorem scheduler_interval_witness :
    (SysState.mk true true initialGlobals).connected = true ∧
    (step (SysState.mk true true initialGlobals)
      (Event.tick 2500 ⟨1, 1, 1, 1, 1, 1, 1⟩)).1.globals.previousMillis =
      2500 :=
  ⟨rfl, ((scheduler_interval (SysState.mk true true initialGlobals) 2500 3000
    ⟨1, 1, 1, 1, 1, 1, 1⟩ ⟨1, 1, 1, 1, 1, 1, 1⟩ rfl).1 (by decide)).2.2⟩

/-- C6 counterexample: at raw pressure 101.32557 kPa the code truncates
1013255.7 to 1013255, while the round formula of the claim yields 1013256. -/
theorem pressure_codec_round_cex :
    getPressure (10132557/100000) = 1013255 ∧
    getPressure_specRound (10132557/100000) = 1013256 := by
  constructor
  · rw [getPressure, truncQ_eval_nonneg (10132557/100000 * 1000 * 10) 1013255
      (by norm_num) (by norm_num) (by norm_num)]
    rfl
  · rw [getPressure_specRound, roundQ_eval (10132557/100000 * 1000 * 10)
      1013256 (by norm_num) (by norm_num)]
    rfl

/-- C6 amended: the pressure codec returns the truncation toward zero (not
the rounding to nearest) of raw*1000*10; the concrete case of the claim
holds: raw 101.325 kPa encodes to 1013250. -/
theorem pressure_codec_trunc (raw : ℚ) :
    getPressure raw =
      (if 0 ≤ raw * 1000 * 10 then ⌊raw * 1000 * 10⌋
       else ⌈raw * 1000 * 10⌉).toNat ∧
    getPressure (101325/1000) = 1013250 := by
  constructor
  · rw [getPressure, truncQ_eq]
  · rw [getPressure, truncQ_eval_nonneg (101325/1000 * 1000 * 10) 1013250
      (by norm_num) (by norm_num) (by norm_num)]
    rfl

/-- C7 counterexample: at raw humidity 45.237 percent the code truncates
4523.7 to 4523, while the round formula of the claim yields 4524. -/
theorem humidity_codec_round_cex :
    getHumidity (45237/1000) = 4523 ∧
    getHumidity_specRound (45237/1000) = 4524 := by
  constructor
  · rw [getHumidity, truncQ_eval_nonneg (45237/1000 * 100) 4523
      (by norm_num) (by norm_num) (by norm_num)]
    rfl
  · rw [getHumidity_specRound, roundQ_eval (45237/1000 * 100) 4524
      (by norm_num) (by norm_num)]
    rfl

/-- C7 amended: the humidity codec returns the truncation toward zero (not
the rounding to nearest) of raw*100; the concrete case of the claim holds:
raw 45.23 percent encodes to 4523. -/
theorem humidity_codec_trunc (raw : ℚ) :
    getHumidity raw =
      (if 0 ≤ raw * 100 then ⌊raw * 100⌋ else ⌈raw * 100⌉).toNat ∧
    getHumidity (4523/100) = 4523 := by
  constructor
  · rw [getHumidity, truncQ_eq]
  · rw [getHumidity, truncQ_eval_nonneg (4523/100 * 100) 4523 (by norm_num)
      (by norm_num) (by norm_num)]
    rfl

/-- C8: the value codec is a pure, deterministic function of its inputs:
the encoded values of one cycle are the same in any two ambient global
states, so re-encoding equal readings in any two runs yields byte-identical
results and the encoding neither reads nor writes state outside its
inputs. -/
theorem codec_pure_deterministic (s1 s2 : Globals) (rd : Readings) :
    cycleEncodings s1 rd = cycleEncodings s2 rd := by
  simp [cycleEncodings]

/-- C9: a disconnection changes only the link state and the LED indicator:
the whole globals record, in particular the scheduler clock
`previousMillis` and every stored last-published value, is unchanged, and
nothing is published. -/
theorem disconnect_frame (s : SysState) :
    (step s Event.disconnect).1.globals = s.globals ∧
    (step s Event.disconnect).1.globals.previousMillis =
      s.globals.previousMillis ∧
    (step s Event.disconnect).1.globals.previousTemperature =
      s.globals.previousTemperature ∧
    (step s Event.disconnect).1.globals.previousHumidity =
      s.globals.previousHumidity ∧
    (step s Event.disconnect).1.globals.previousPressure =
      s.globals.previousPressure ∧
    (step s Event.disconnect).1.globals.previousColor =
      s.globals.previousColor ∧
    (step s Event.disconnect).1.connected = false ∧
    (step s Event.disconnect).1.ledOn = false ∧
    (step s Event.disconnect).2 = [] :=
  ⟨rfl, rfl, rfl, rfl, rfl, rfl, rfl, rfl, rfl⟩

/-- C10: the byte buffer of any color publish is the ASCII bytes of the
encoded string followed by a trailing NUL byte: its length is the string
length plus one (15 bytes for "100,200,300,50", not a fixed 24), and its
last byte is 0. -/
theorem color_wire_layout (s : Globals) (rd : Readings) (str : String) :
    (colorBytes str).length = str.length + 1 ∧
    (colorBytes str).getLast? = some 0 ∧
    (colorBytes (colorString 100 200 300 50)).length = 15 ∧
    ((updateReadings s rd).2.all fun p =>
      match p with
      | Publish.color bs =>
        bs == colorBytes (colorString rd.colorR rd.colorG rd.colorB rd.colorA)
      | _ => true) = true := by
  refine ⟨?_, ?_, by decide, ?_⟩
  · show (str.data.map Char.toNat ++ [0]).length = str.length + 1
    rw [List.length_append, List.length_map]
    rfl
  · simp [colorBytes, List.getLast?_concat]
  · simp only [updateReadings, List.all_append]
    split_ifs with h1 h2 h3 h4 <;> simp_all

end ComboSensorBLE
